import Mathlib

/-!
Shallow embedding of `crates/tattoy/src/tattoys/animated_cursor.rs`: the
animated-cursor effect layer's render/control loop, its protocol-message
handling, the vertical coordinate reconciliation of the render pass, and the
supervised entry point `AnimatedCursor::start` with its two tiers of failure
containment.

External collaborators (the GPU pipeline, the `Tattoyer` layer base, the
broadcast control bus, the shared-state store and the notification sink) are
represented by their observable interface: fallible external calls become
oracle parameters, and every externally visible action performed by the
orchestrator is recorded in an explicit event trace.
-/

namespace AnimatedCursor

/-- Severity levels of the notification sink (`notifications::message::Level`). -/
inductive Level
  | info
  | warning
  | error
deriving DecidableEq, Repr

/-- One notification dispatched through `SharedState::send_notification`:
title, severity, optional detail text, and the persistent flag. -/
structure Notification where
  title : String
  level : Level
  detail : Option String
  persistent : Bool
deriving DecidableEq, Repr

/-- Control-bus messages (`crate::run::Protocol`). The loop inspects `End` and
`Repaint`; all other variants are forwarded opaquely and are represented by a
numeric tag. -/
inductive Protocol
  | End
  | Repaint
  | Other (tag : Nat)
deriving DecidableEq, Repr

/-- Receive errors of the broadcast control bus
(`tokio::sync::broadcast::error::RecvError`). -/
inductive RecvError
  | closed
  | lagged (skipped : Nat)
deriving DecidableEq, Repr

/-- A rendered image produced by the GPU pipeline: a pixel grid with explicit
bounds. Colors are abstracted as natural numbers. -/
structure Image where
  width : Nat
  height : Nat
  pixel : Nat → Nat → Nat

/-- The checked pixel fetch used by the render pass
(`image::RgbaImage::get_pixel_checked`): the pixel when the coordinate is in
bounds, `none` otherwise. -/
def Image.get_pixel_checked (img : Image) (x y : Nat) : Option Nat :=
  if x < img.width && y < img.height then some (img.pixel x y) else none

/-- The vertical coordinate reconciliation of `AnimatedCursor::render`:
`y_reversed = tty_height_in_pixels - y - offset_for_reversal` with
`offset_for_reversal = 1`. -/
def rowInversion (tty_height_in_pixels y : Nat) : Nat :=
  tty_height_in_pixels - y - 1

/-- Externally visible actions performed by the orchestrator, in order. -/
inductive TraceEvent
  | updateCursorPosition (x y : Nat)
  | fetchPixel (x y : Nat)
  | addPixel (x y color : Nat)
  | sendOutput
  | uploadTexture (upload_tty_as_pixels : Bool)
  | gpuForward (message : Protocol)
  | tattoyForward (message : Protocol)
  | logRecvError (e : RecvError)
deriving DecidableEq, Repr

/-- Errors that abort a render pass. `pixelFetch` records the offending
`(x, y_reversed)` coordinate of a failed checked fetch. -/
inductive RenderError
  | conversion (coordinate : Int)
  | gpu (e : String)
  | pixelFetch (x y : Nat)
deriving DecidableEq, Repr

/-- The human-readable message of a render error; for a failed pixel fetch it
is the `format!` string of the source, tagged with the offending coordinates. -/
def RenderError.message : RenderError → String
  | .pixelFetch x y => "Couldn\x27t get pixel: " ++ toString x ++ "x" ++ toString y
  | .conversion i => "out of range integral type conversion attempted: " ++ toString i
  | .gpu e => e

/-- Modelled from the spec: the conversion of a cursor cell coordinate to the
GPU pipeline's coordinate units (`cursor.0.try_into()?` in
`AnimatedCursor::render`). The terminal-surface cursor type and
`GPU::update_cursor_position` live outside this crate's sources; per the spec
the coordinate is a signed integer and conversion to an unsigned integer
succeeds exactly for non-negative values and fails with a conversion error
(never panicking) for negative ones. -/
def try_into_uint (i : Int) : Except RenderError Nat :=
  if 0 ≤ i then .ok i.toNat else .error (.conversion i)

/-- One destination pixel of the render pass inner loop: compute the reversed
source row, fetch the pixel (checked), and on success write it into the
destination surface. -/
def renderCell (img : Image) (tty_height_in_pixels x y : Nat) :
    List TraceEvent × Option RenderError :=
  let y_reversed := rowInversion tty_height_in_pixels y
  match img.get_pixel_checked x y_reversed with
  | none => ([.fetchPixel x y_reversed], some (.pixelFetch x y_reversed))
  | some color => ([.fetchPixel x y_reversed, .addPixel x y color], none)

/-- Sequence effectful steps: keep the events performed up to and including
the first failing step and stop there, as the `?` operator does. -/
def runSeq : List (List TraceEvent × Option RenderError) →
    List TraceEvent × Option RenderError
  | [] => ([], none)
  | step :: rest =>
    match step.2 with
    | some e => (step.1, some e)
    | none =>
      let tail := runSeq rest
      (step.1 ++ tail.1, tail.2)

/-- The double pixel loop of `AnimatedCursor::render`: rows
`y in 0..tty_height_in_pixels` outermost, columns `x in 0..width` innermost. -/
def renderPixels (img : Image) (width tty_height_in_pixels : Nat) :
    List TraceEvent × Option RenderError :=
  runSeq ((List.range tty_height_in_pixels).flatMap fun y =>
    (List.range width).map fun x => renderCell img tty_height_in_pixels x y)

/-- The per-frame inputs of a render pass: the cursor cell position read from
the terminal surface, the layer base's terminal size (width in cells, height
in cells), and the outcome of the GPU pipeline's render call. -/
structure RenderCtx where
  cursor : Int × Int
  width : Nat
  height : Nat
  gpuRender : Except String Image

/-- The render pass `AnimatedCursor::render`: convert the cursor position and
update the GPU cursor, obtain the rendered image, remap it row-inverted into
the destination surface (half-block doubling: the pixel height is twice the
cell height), and submit the completed surface with `send_output`. Returns
the events performed together with the error aborting the frame, if any. -/
def render (ctx : RenderCtx) : List TraceEvent × Option RenderError :=
  match try_into_uint ctx.cursor.1 with
  | .error e => ([], some e)
  | .ok cx =>
    match try_into_uint ctx.cursor.2 with
    | .error e => ([], some e)
    | .ok cy =>
      match ctx.gpuRender with
      | .error e => ([.updateCursorPosition cx cy], some (.gpu e))
      | .ok image =>
        let tty_height_in_pixels := ctx.height * 2
        let body := renderPixels image ctx.width tty_height_in_pixels
        match body.2 with
        | some e => (.updateCursorPosition cx cy :: body.1, some e)
        | none =>
          (.updateCursorPosition cx cy :: (body.1 ++ [.sendOutput]), none)

/-- Outcomes of the fallible external calls made while handling a protocol
message: the terminal-snapshot-and-upload step, the GPU pipeline's protocol
handler, and the layer base's common handler. `none` means success. -/
structure HandlerOracles where
  upload : Bool → Option String
  gpu : Protocol → Option String
  tattoy : Protocol → Option String

/-- The method `AnimatedCursor::upload_tty_as_pixels`: read the live
`upload_tty_as_pixels` flag from shared config, obtain the terminal pixel
snapshot conditioned on it and upload it to the GPU as the input texture; the
snapshot/upload work is external and its outcome is given by the oracle. -/
def upload_tty_as_pixels (o : HandlerOracles) (flag : Bool) :
    List TraceEvent × Option String :=
  ([.uploadTexture flag], o.upload flag)

/-- The method `AnimatedCursor::handle_protocol_message`: on a successfully
received message, first perform the texture upload when the message is
`Repaint`, then forward the message to the GPU pipeline's handler and then to
the layer base's common handler, stopping at the first failure; on a receive
error, log it and return success. -/
def handle_protocol_message (o : HandlerOracles) (flag : Bool)
    (protocol_result : Except RecvError Protocol) :
    List TraceEvent × Option String :=
  match protocol_result with
  | .error e => ([.logRecvError e], none)
  | .ok message =>
    let uploadStep : List TraceEvent × Option String :=
      if message = Protocol.Repaint then upload_tty_as_pixels o flag
      else ([], none)
    match uploadStep.2 with
    | some e => (uploadStep.1, some e)
    | none =>
      match o.gpu message with
      | some e => (uploadStep.1 ++ [.gpuForward message], some e)
      | none =>
        match o.tattoy message with
        | some e =>
          (uploadStep.1 ++ [.gpuForward message, .tattoyForward message], some e)
        | none =>
          (uploadStep.1 ++ [.gpuForward message, .tattoyForward message], none)

/-- One ready event of the `tokio::select!` race: a frame tick, or a received
control-bus result. -/
inductive LoopEvent
  | tick
  | message (result : Except RecvError Protocol)

/-- The test `matches!(result, Ok(crate::run::Protocol::End))` of the loop. -/
def isEnd : Except RecvError Protocol → Bool
  | .ok Protocol.End => true
  | _ => false

/-- How a run of the main loop ended: normal termination on `End`, a
propagated error from the render pass or the message handler, or the finite
event schedule ran out with the loop still running. -/
inductive LoopOutcome
  | terminated
  | erredRender (e : RenderError)
  | erredHandler (e : String)
  | ranOut
deriving DecidableEq, Repr

/-- The fixed context of a loop run: render inputs, handler oracles and the
current `upload_tty_as_pixels` flag. -/
structure LoopCtx where
  renderCtx : RenderCtx
  oracles : HandlerOracles
  flag : Bool

/-- The loop of `AnimatedCursor::main` over a finite schedule of ready
events. A tick runs the render pass, whose error ends the loop erred; a
received `Ok(End)` breaks out of the loop before any further processing;
every other receive result goes to `handle_protocol_message`, whose error
ends the loop erred. Returns all events performed and the outcome. -/
def mainLoop (ctx : LoopCtx) : List LoopEvent → List TraceEvent × LoopOutcome
  | [] => ([], .ranOut)
  | LoopEvent.tick :: rest =>
    let r := render ctx.renderCtx
    match r.2 with
    | some e => (r.1, .erredRender e)
    | none =>
      let tail := mainLoop ctx rest
      (r.1 ++ tail.1, tail.2)
  | LoopEvent.message result :: rest =>
    if isEnd result then ([], .terminated)
    else
      let h := handle_protocol_message ctx.oracles ctx.flag result
      match h.2 with
      | some e => (h.1, .erredHandler e)
      | none =>
        let tail := mainLoop ctx rest
        (h.1 ++ tail.1, tail.2)

/-- A panic payload caught by `catch_unwind`: a `String`, a `&str`, or any
other type. -/
inductive PanicPayload
  | ofString (message : String)
  | ofStr (message : String)
  | unknown
deriving DecidableEq, Repr

/-- How `Self::main` ended, as observed by `start`: a normal return, a
returned error (abstracted to its root-cause text), or a panic. -/
inductive MainOutcome
  | ok
  | err (e : String)
  | panicked (payload : PanicPayload)
deriving DecidableEq, Repr

/-- The best-effort message extraction of `AnimatedCursor::start`: the
payload's `String` if present, else its `&str`, else the fixed fallback. -/
def panicMessage : PanicPayload → String
  | .ofString message => message
  | .ofStr message => message
  | .unknown => "Caught a panic with an unknown type."

/-- Everything `start` does: log lines, notifications dispatched, and its
return value. -/
structure StartResult where
  logs : List String
  notifications : List Notification
  result : Except String Unit
deriving Repr

/-- The inner async block of `AnimatedCursor::start`: inspect the result of
`main`; on error, log it, dispatch the persistent Error-severity
"GPU pipeline error" notification carrying the root-cause text, and re-return
the error; otherwise return Ok. -/
def startInner (r : Except String Unit) : StartResult :=
  match r with
  | .error error =>
    { logs := ["GPU pipeline error: " ++ error]
      notifications := [⟨"GPU pipeline error", Level.error, some error, true⟩]
      result := .error error }
  | .ok _ => { logs := [], notifications := [], result := .ok () }

/-- The entry point `AnimatedCursor::start`: the inner block runs under
`catch_unwind`. When `main` panics the inner error handling never runs and
the panic is reported with the persistent Error-severity
"GPU pipeline panic" notification; when `main` merely errs, the inner block's
notification fires and its error value is discarded by the
`if let Err(error) = may_panic.catch_unwind().await` test, which only matches
a panic. The function ends with `Ok(())` on every path. -/
def start (m : MainOutcome) : StartResult :=
  match m with
  | .ok => { startInner (.ok ()) with result := .ok () }
  | .err e => { startInner (.error e) with result := .ok () }
  | .panicked payload =>
    let message := panicMessage payload
    { logs := ["Shader panic: " ++ message]
      notifications := [⟨"GPU pipeline panic", Level.error, some message, true⟩]
      result := .ok () }

/-! Helper lemmas about the render pass's event trace. -/

/-- Every event of a sequenced run comes from one of its steps. -/
theorem runSeq_fst_mem {l : List (List TraceEvent × Option RenderError)}
    {e : TraceEvent} (he : e ∈ (runSeq l).1) : ∃ s, s ∈ l ∧ e ∈ s.1 := by
  induction l with
  | nil => simp [runSeq] at he
  | cons step rest ih =>
    cases h2 : step.2 with
    | some err =>
      simp only [runSeq, h2] at he
      exact ⟨step, List.mem_cons_self step rest, he⟩
    | none =>
      simp only [runSeq, h2, List.mem_append] at he
      cases he with
      | inl hl => exact ⟨step, List.mem_cons_self step rest, hl⟩
      | inr hr =>
        obtain ⟨s, hs, hes⟩ := ih hr
        exact ⟨s, List.mem_cons_of_mem step hs, hes⟩

/-- When every step succeeds, a sequenced run succeeds and its trace is the
concatenation of the step traces. -/
theorem runSeq_of_forall_none {l : List (List TraceEvent × Option RenderError)}
    (h : ∀ s ∈ l, s.2 = none) : runSeq l = (l.flatMap Prod.fst, none) := by
  induction l with
  | nil => rfl
  | cons step rest ih =>
    have h2 : step.2 = none := h step (List.mem_cons_self step rest)
    have hrest : runSeq rest = (rest.flatMap Prod.fst, none) :=
      ih fun s hs => h s (List.mem_cons_of_mem step hs)
    simp [runSeq, h2, hrest]

/-- A pixel step whose source coordinate is inside the image succeeds and
records the fetch and the destination write. -/
theorem renderCell_in_bounds {img : Image} {hgt x y : Nat}
    (hx : x < img.width) (hy : rowInversion hgt y < img.height) :
    renderCell img hgt x y =
      ([.fetchPixel x (rowInversion hgt y),
        .addPixel x y (img.pixel x (rowInversion hgt y))], none) := by
  simp [renderCell, Image.get_pixel_checked, hx, hy]

/-- The pixel loop never emits a frame-submission event. -/
theorem sendOutput_not_mem_renderPixels (img : Image) (w hgt : Nat) :
    TraceEvent.sendOutput ∉ (renderPixels img w hgt).1 := by
  intro hmem
  obtain ⟨s, hs, hes⟩ := runSeq_fst_mem hmem
  simp only [List.mem_flatMap, List.mem_map] at hs
  obtain ⟨y, _, x, _, rfl⟩ := hs
  unfold renderCell at hes
  cases hget : img.get_pixel_checked x (rowInversion hgt y) <;>
    simp [hget] at hes

/-- A render pass that ends in an error never reaches `send_output`. -/
theorem render_err_no_sendOutput {ctx : RenderCtx} {e : RenderError}
    (hfail : (render ctx).2 = some e) :
    TraceEvent.sendOutput ∉ (render ctx).1 := by
  unfold render at hfail ⊢
  cases hc1 : try_into_uint ctx.cursor.1 with
  | error e1 => simp [hc1]
  | ok cx =>
    cases hc2 : try_into_uint ctx.cursor.2 with
    | error e2 => simp [hc1, hc2]
    | ok cy =>
      cases hg : ctx.gpuRender with
      | error ge => simp [hc1, hc2, hg]
      | ok image =>
        simp only [hc1, hc2, hg] at hfail ⊢
        cases hb : (renderPixels image ctx.width (ctx.height * 2)).2 with
        | some be =>
          simp only [hb, List.mem_cons]
          rintro (h1 | h2)
          · exact TraceEvent.noConfusion h1
          · exact sendOutput_not_mem_renderPixels image ctx.width (ctx.height * 2) h2
        | none => simp [hb] at hfail

/-- Every event of a succeeding step of a succeeding sequenced run is in the
run's trace. -/
theorem mem_runSeq_fst_of_mem {l : List (List TraceEvent × Option RenderError)}
    (hall : ∀ s ∈ l, s.2 = none) {s : List TraceEvent × Option RenderError}
    (hs : s ∈ l) {e : TraceEvent} (he : e ∈ s.1) : e ∈ (runSeq l).1 := by
  rw [runSeq_of_forall_none hall]
  exact List.mem_flatMap.mpr ⟨s, hs, he⟩

/-- With the rendered image covering the full pixel bounds, the loop's fetch
of destination pixel (x, y) at source row rowInversion appears in the trace. -/
theorem fetch_mem_renderPixels {img : Image} {w hgt x y : Nat}
    (hx : x < w) (hy : y < hgt) (hw : w ≤ img.width) (hh : hgt ≤ img.height) :
    TraceEvent.fetchPixel x (rowInversion hgt y) ∈ (renderPixels img w hgt).1 := by
  have hall : ∀ s ∈ (List.range hgt).flatMap
      (fun y => (List.range w).map fun x => renderCell img hgt x y), s.2 = none := by
    intro s hs
    simp only [List.mem_flatMap, List.mem_map] at hs
    obtain ⟨y', hy', x', hx', rfl⟩ := hs
    have hx'w : x' < img.width := lt_of_lt_of_le (List.mem_range.mp hx') hw
    have hy'h : rowInversion hgt y' < img.height := by
      have := List.mem_range.mp hy'
      unfold rowInversion
      omega
    rw [renderCell_in_bounds hx'w hy'h]
  have hcell : renderCell img hgt x y ∈ (List.range hgt).flatMap
      (fun y => (List.range w).map fun x => renderCell img hgt x y) :=
    List.mem_flatMap.mpr ⟨y, List.mem_range.mpr hy,
      List.mem_map.mpr ⟨x, List.mem_range.mpr hx, rfl⟩⟩
  apply mem_runSeq_fst_of_mem hall hcell
  rw [renderCell_in_bounds (lt_of_lt_of_le hx hw)
    (by unfold rowInversion; omega : rowInversion hgt y < img.height)]
  simp

/-! Concrete instances used by witnesses. -/

/-- Collaborator oracles where every external call succeeds. -/
def trivialOracles : HandlerOracles := ⟨fun _ => none, fun _ => none, fun _ => none⟩

/-- A concrete per-frame context with a non-negative cursor and a rendered
image covering the pixel bounds. -/
def ctxPos : RenderCtx := ⟨(2, 3), 1, 1, .ok ⟨1, 2, fun _ _ => 0⟩⟩

/-- A concrete per-frame context with a negative cursor column. -/
def ctxNeg : RenderCtx := ⟨(-1, 0), 1, 1, .ok ⟨1, 2, fun _ _ => 0⟩⟩

/-- A concrete per-frame context whose rendered image is a 1x1 grid, smaller
than the 2x2 terminal pixel bounds. -/
def ctxSmallImage : RenderCtx := ⟨(0, 0), 2, 1, .ok ⟨1, 1, fun _ _ => 5⟩⟩

/-- A concrete loop context built from ctxPos and trivialOracles. -/
def ctxLoop : LoopCtx := ⟨ctxPos, trivialOracles, true⟩

/-- Whether a trace event is a texture-upload call. -/
def isUploadEvent : TraceEvent → Bool
  | .uploadTexture _ => true
  | _ => false

/-! Theorems settling the claims. -/

/-- Claim C3: for every destination pixel row y below the terminal pixel
height, the render pass fetches source row tty_height_in_pixels - y - 1 from
the rendered image, and applying the row mapping twice with the same height
returns the original row: the mapping is an involution on the valid range. -/
theorem render_fetches_row_inverted (img : Image) (w hgt x y : Nat)
    (hx : x < w) (hy : y < hgt) (hw : w ≤ img.width) (hh : hgt ≤ img.height) :
    TraceEvent.fetchPixel x (rowInversion hgt y) ∈ (renderPixels img w hgt).1 ∧
    rowInversion hgt y = hgt - y - 1 ∧
    rowInversion hgt (rowInversion hgt y) = y := by
  refine ⟨fetch_mem_renderPixels hx hy hw hh, rfl, ?_⟩
  unfold rowInversion
  omega

/-- Witness for C3: a 10x10 rendered image, destination pixel (3, 4). -/
theorem render_fetches_row_inverted_witness :
    TraceEvent.fetchPixel 3 (rowInversion 10 4) ∈
      (renderPixels ⟨10, 10, fun _ _ => 0⟩ 10 10).1 ∧
    rowInversion 10 4 = 10 - 4 - 1 ∧
    rowInversion 10 (rowInversion 10 4) = 4 :=
  render_fetches_row_inverted ⟨10, 10, fun _ _ => 0⟩ 10 10 3 4 (by decide)
    (by decide) (by decide) (by decide)

/-- Claim C9: the pixel loop evaluates the row-inversion subtraction only for
destination rows y strictly below tty_height_in_pixels (the rows iterated by
the loop are exactly those of List.range), and for each such y the unsigned
subtraction agrees with exact integer subtraction (no underflow, for every
height including zero) and the inverted row lies in the valid range. -/
theorem row_subtraction_safe (hgt : Nat) :
    (∀ y ∈ List.range hgt, y < hgt) ∧
    (∀ y : Nat, y < hgt →
      (hgt : Int) - (y : Int) - 1 = ((rowInversion hgt y : Nat) : Int) ∧
        rowInversion hgt y < hgt) := by
  constructor
  · intro y hy
    exact List.mem_range.mp hy
  · intro y hy
    unfold rowInversion
    constructor <;> omega

/-- Witness for C9 at height 10, destination row 3. -/
theorem row_subtraction_safe_witness :
    (10 : Int) - (3 : Int) - 1 = ((rowInversion 10 3 : Nat) : Int) ∧
      rowInversion 10 3 < 10 :=
  (row_subtraction_safe 10).2 3 (by decide)

/-- Claim C4: when a checked pixel fetch at (x, inverted_y) falls outside the
rendered image's bounds, the render pass returns an error whose message
contains the offending coordinates, and send_output is never reached: no
frame-submission event occurs in the pass's trace. -/
theorem render_out_of_bounds_error (ctx : RenderCtx) (x y : Nat)
    (hfail : (render ctx).2 = some (RenderError.pixelFetch x y)) :
    (∃ pre mid, (RenderError.pixelFetch x y).message
        = pre ++ toString x ++ mid ++ toString y) ∧
    TraceEvent.sendOutput ∉ (render ctx).1 :=
  ⟨⟨"Couldn\x27t get pixel: ", "x", rfl⟩, render_err_no_sendOutput hfail⟩

/-- Witness for C4: a 1x1 rendered image against 2x2 terminal pixel bounds
fails at source coordinate (0, 1). -/
theorem render_out_of_bounds_error_witness :
    (∃ pre mid, (RenderError.pixelFetch 0 1).message
        = pre ++ toString 0 ++ mid ++ toString 1) ∧
    TraceEvent.sendOutput ∉ (render ctxSmallImage).1 :=
  render_out_of_bounds_error ctxSmallImage 0 1 (by decide)

/-- Claim C8 (collaborator types modelled from the spec): conversion of a
cursor cell coordinate to the pipeline's units is a total function that
succeeds on every non-negative coordinate; a negative coordinate makes the
render pass abort with the propagated conversion error before performing any
action. -/
theorem cursor_conversion_total (ctx : RenderCtx) :
    (0 ≤ ctx.cursor.1 → 0 ≤ ctx.cursor.2 →
      try_into_uint ctx.cursor.1 = .ok ctx.cursor.1.toNat ∧
      try_into_uint ctx.cursor.2 = .ok ctx.cursor.2.toNat) ∧
    (ctx.cursor.1 < 0 ∨ ctx.cursor.2 < 0 →
      ∃ i : Int, i < 0 ∧ (render ctx).2 = some (RenderError.conversion i) ∧
        (render ctx).1 = []) := by
  constructor
  · intro h1 h2
    constructor <;> simp [try_into_uint, h1, h2]
  · intro hneg
    by_cases h1 : ctx.cursor.1 < 0
    · refine ⟨ctx.cursor.1, h1, ?_, ?_⟩ <;>
        simp [render, try_into_uint, not_le.mpr h1]
    · have h2 : ctx.cursor.2 < 0 := hneg.resolve_left h1
      refine ⟨ctx.cursor.2, h2, ?_, ?_⟩ <;>
        simp [render, try_into_uint, not_lt.mp h1, not_le.mpr h2]

/-- Witness for C8: cursor (2, 3) converts; cursor (-1, 0) aborts the frame
with a conversion error and an empty trace. -/
theorem cursor_conversion_total_witness :
    (try_into_uint ctxPos.cursor.1 = .ok ctxPos.cursor.1.toNat ∧
      try_into_uint ctxPos.cursor.2 = .ok ctxPos.cursor.2.toNat) ∧
    (∃ i : Int, i < 0 ∧ (render ctxNeg).2 = some (RenderError.conversion i) ∧
      (render ctxNeg).1 = []) :=
  ⟨(cursor_conversion_total ctxPos).1 (by decide) (by decide),
    (cursor_conversion_total ctxNeg).2 (Or.inl (by decide))⟩

/-- Claim C5: a successfully received Repaint triggers exactly one
texture-upload call, placed first in the handling trace (so before the GPU
and layer-base forwards) and recording the upload_tty_as_pixels flag read at
that moment; when all collaborator calls succeed the trace is exactly the
upload followed by the GPU forward and the layer-base forward; a non-Repaint
message triggers no upload at all. -/
theorem repaint_uploads_once (o : HandlerOracles) (flag : Bool) (msg : Protocol) :
    ((handle_protocol_message o flag (.ok Protocol.Repaint)).1.countP isUploadEvent = 1 ∧
      (handle_protocol_message o flag (.ok Protocol.Repaint)).1.head?
        = some (TraceEvent.uploadTexture flag)) ∧
    (msg ≠ Protocol.Repaint →
      (handle_protocol_message o flag (.ok msg)).1.countP isUploadEvent = 0) ∧
    (o.upload flag = none → o.gpu Protocol.Repaint = none →
      o.tattoy Protocol.Repaint = none →
      (handle_protocol_message o flag (.ok Protocol.Repaint)).1
        = [TraceEvent.uploadTexture flag, TraceEvent.gpuForward Protocol.Repaint,
            TraceEvent.tattoyForward Protocol.Repaint]) := by
  refine ⟨?_, ?_, ?_⟩
  · cases hu : o.upload flag with
    | some e =>
      simp [handle_protocol_message, upload_tty_as_pixels, hu, isUploadEvent]
    | none =>
      cases hg : o.gpu Protocol.Repaint with
      | some e =>
        simp [handle_protocol_message, upload_tty_as_pixels, hu, hg, isUploadEvent]
      | none =>
        cases ht : o.tattoy Protocol.Repaint <;>
          simp [handle_protocol_message, upload_tty_as_pixels, hu, hg, ht, isUploadEvent]
  · intro hmsg
    cases hg : o.gpu msg with
    | some e =>
      simp [handle_protocol_message, hmsg, hg, isUploadEvent]
    | none =>
      cases ht : o.tattoy msg <;>
        simp [handle_protocol_message, hmsg, hg, ht, isUploadEvent]
  · intro hu hg ht
    simp [handle_protocol_message, upload_tty_as_pixels, hu, hg, ht]

/-- Witness for C5: with all-success oracles, an End message performs no
upload and a Repaint performs exactly the upload-forward-forward sequence. -/
theorem repaint_uploads_once_witness :
    (handle_protocol_message trivialOracles true (.ok Protocol.End)).1.countP
        isUploadEvent = 0 ∧
    (handle_protocol_message trivialOracles true (.ok Protocol.Repaint)).1
      = [TraceEvent.uploadTexture true, TraceEvent.gpuForward Protocol.Repaint,
          TraceEvent.tattoyForward Protocol.Repaint] :=
  ⟨(repaint_uploads_once trivialOracles true Protocol.End).2.1 (by decide),
    (repaint_uploads_once trivialOracles true Protocol.End).2.2 rfl rfl rfl⟩

/-- Claim C6: if the loop is still running after a schedule of events, then
receiving Ok(End) makes it exit within that same iteration: the End message
is not processed further (no upload and no forwards appear for it) and no
event at all — in particular no frame submission — occurs after it, whatever
events follow. -/
theorem end_terminates_loop (ctx : LoopCtx) (pre post : List LoopEvent)
    (hrun : (mainLoop ctx pre).2 = LoopOutcome.ranOut) :
    mainLoop ctx (pre ++ LoopEvent.message (Except.ok Protocol.End) :: post)
      = ((mainLoop ctx pre).1, LoopOutcome.terminated) := by
  induction pre with
  | nil => rfl
  | cons ev rest ih =>
    cases ev with
    | tick =>
      simp only [mainLoop, List.cons_append] at hrun ⊢
      cases hr : (render ctx.renderCtx).2 with
      | some e => simp [hr] at hrun
      | none =>
        simp only [hr] at hrun ⊢
        have ih2 : mainLoop ctx
            (rest.append (LoopEvent.message (Except.ok Protocol.End) :: post))
            = ((mainLoop ctx rest).1, LoopOutcome.terminated) := ih hrun
        rw [ih2]
    | message result =>
      simp only [mainLoop, List.cons_append] at hrun ⊢
      by_cases he : isEnd result
      · simp [he] at hrun
      · simp only [he, Bool.false_eq_true, if_false] at hrun ⊢
        cases hh : (handle_protocol_message ctx.oracles ctx.flag result).2 with
        | some e => simp [hh] at hrun
        | none =>
          simp only [hh] at hrun ⊢
          have ih2 : mainLoop ctx
              (rest.append (LoopEvent.message (Except.ok Protocol.End) :: post))
              = ((mainLoop ctx rest).1, LoopOutcome.terminated) := ih hrun
          rw [ih2]

/-- Witness for C6: from the empty prefix, an End message followed by a
pending tick terminates at once with an empty trace. -/
theorem end_terminates_loop_witness :
    mainLoop ctxLoop
        ([] ++ LoopEvent.message (Except.ok Protocol.End) :: [LoopEvent.tick])
      = ((mainLoop ctxLoop []).1, LoopOutcome.terminated) :=
  end_terminates_loop ctxLoop [] [LoopEvent.tick] rfl

/-- Claim C7: a control-bus receive error is logged and message handling
returns success, and inside the loop the iteration continues: the loop's
remaining behaviour is exactly that of the rest of the schedule — a receive
error is never fatal. -/
theorem recv_error_not_fatal (o : HandlerOracles) (flag : Bool) (e : RecvError)
    (ctx : LoopCtx) (rest : List LoopEvent) :
    handle_protocol_message o flag (.error e)
      = ([TraceEvent.logRecvError e], none) ∧
    mainLoop ctx (LoopEvent.message (.error e) :: rest)
      = (TraceEvent.logRecvError e :: (mainLoop ctx rest).1,
          (mainLoop ctx rest).2) := by
  refine ⟨rfl, ?_⟩
  simp [mainLoop, handle_protocol_message, isEnd]

/-- Claim C2: every panic in the loop body is caught by start: the payload's
string message is extracted (String first, then str, else the fixed
fallback), exactly one persistent Error-severity "GPU pipeline panic"
notification carrying it is dispatched, and start returns Ok. -/
theorem panic_is_contained (payload : PanicPayload) (s : String) :
    start (MainOutcome.panicked payload)
      = { logs := ["Shader panic: " ++ panicMessage payload]
          notifications :=
            [⟨"GPU pipeline panic", Level.error, some (panicMessage payload), true⟩]
          result := Except.ok () } ∧
    (start (MainOutcome.panicked payload)).notifications.length = 1 ∧
    panicMessage (PanicPayload.ofString s) = s ∧
    panicMessage (PanicPayload.ofStr s) = s ∧
    panicMessage PanicPayload.unknown = "Caught a panic with an unknown type." :=
  ⟨rfl, rfl, rfl, rfl, rfl⟩

/-- Counterexample for C1: when the loop body ends in an error, start does
not return that error as its own result; it returns Ok. -/
theorem start_error_swallowed_counterexample :
    (start (MainOutcome.err "shader failed")).result = Except.ok () ∧
    (start (MainOutcome.err "shader failed")).result
      ≠ Except.error "shader failed" :=
  ⟨rfl, fun h => Except.noConfusion h⟩

/-- Claim C1 as amended: when the loop body returns an error, start logs it
and dispatches the persistent Error-severity "GPU pipeline error"
notification carrying the root-cause text, and the inner supervised block
re-raises the error; but the surrounding catch_unwind result is only
inspected for panics, so start discards the error and returns Ok — the task
terminates, without the error as the entry point's return value. -/
theorem loop_error_notifies (e : String) :
    (startInner (Except.error e)).result = Except.error e ∧
    start (MainOutcome.err e)
      = { logs := ["GPU pipeline error: " ++ e]
          notifications := [⟨"GPU pipeline error", Level.error, some e, true⟩]
          result := Except.ok () } :=
  ⟨rfl, rfl⟩

/-- Claim C10: start returns Ok on every execution path — normal completion,
a loop error, or a panic. -/
theorem start_always_ok (m : MainOutcome) : (start m).result = Except.ok () := by
  cases m <;> rfl

end AnimatedCursor
